import Mathlib

/-!
Shallow embedding of the mobile conference screen of this repository.

Two near-duplicate variants of the component exist:
  - variant 1: react/features/conference/components/native/Conference.js
  - variant 2: src/unnamed/part_000 (an earlier revision of the same file)

The component derives boolean visibility flags from application state
(via the function named in the source as a state-to-props mapping), composes a
view tree from a fixed set of child views, handles the hardware back button,
and dispatches a toolbar-visibility action on taps.  External collaborators
(child view components, the action creators, the back-button registry, the
feature-flag and conference-name selectors) are modelled as abstract inputs or
as small state machines, as noted at each definition.
-/

set_option autoImplicit false

/-- The slice of application state read by the connecting-flag derivation:
the connection slice contributes `connecting` and the truthiness of the
`connection` object; the conference slice contributes the truthiness of the
`conference` object plus the `joining`, `membersOnly` and `leaving` flags.
JavaScript truthiness of the two object references is modelled as `Bool`. -/
structure SessionState where
  connecting : Bool
  connection : Bool
  conference : Bool
  joining : Bool
  membersOnly : Bool
  leaving : Bool
deriving DecidableEq, Repr

/-- Variant 1 derivation of the `connecting_` local
(Conference.js lines 348-349):
`connecting || (connection && (!membersOnly && (joining || (!conference && !leaving))))`,
then coerced with `Boolean(...)`. -/
def connectingProp (s : SessionState) : Bool :=
  s.connecting || (s.connection && (!s.membersOnly && (s.joining || (!s.conference && !s.leaving))))

/-- Variant 2 derivation of the `connecting_` local (part_000 lines 365-366):
`connecting || (connection && (joining || (!conference && !leaving)))`,
then coerced with `Boolean(...)`.  No members-only gate. -/
def connectingPropV2 (s : SessionState) : Bool :=
  s.connecting || (s.connection && (s.joining || (!s.conference && !s.leaving)))

/-- The boolean formula exactly as the claim and spec section 4.3 word it,
without the members-only gate; written from the claim wording, to be compared
against the source-derived `connectingPropV2`. -/
def connectingClaimed (s : SessionState) : Bool :=
  s.connecting || (s.connection && (s.joining || (!s.conference && !s.leaving)))

/-- The boolean formula as the claim words it for the members-only variant:
the transport-connected disjunct additionally conjoined with the negation of
the members-only flag.  Written from the claim wording, to be compared against
the source-derived `connectingProp`. -/
def connectingClaimedMembersOnly (s : SessionState) : Bool :=
  s.connecting || ((s.connection && !s.membersOnly) && (s.joining || (!s.conference && !s.leaving)))

/-- The props consumed by the render methods, exactly the fields destructured
by the render code of the component (variant 1 lines 220-229). -/
structure ConferenceProps where
  aspectRatioNarrow : Bool
  connecting : Bool
  filmstripVisible : Bool
  largeVideoParticipantId : String
  reducedUI : Bool
  shouldDisplayTileView : Bool
  toolboxVisible : Bool
  toolboxEnabled : Bool
deriving DecidableEq, Repr

/-- The React elements the render methods can produce.  `largeVideo` carries
its optional `whiteback` prop (the reduced-UI path passes none); `tintedView`
and `safeAreaView` carry child elements. -/
inductive RNode where
  | largeVideo : Option Bool → RNode
  | tileView : RNode
  | loadingIndicator : RNode
  | tintedView : List RNode → RNode
  | displayNameLabel : String → RNode
  | toolbox : RNode
  | filmstrip : RNode
  | safeAreaView : List RNode → RNode
deriving Repr

/-- Element kinds, used to ask whether a rendered tree contains an element of
a given kind. -/
inductive RTag where
  | largeVideoT
  | tileViewT
  | loadingIndicatorT
  | tintedViewT
  | displayNameLabelT
  | toolboxT
  | filmstripT
  | safeAreaViewT
deriving DecidableEq, BEq, Repr

/-- The kind of a node. -/
def RNode.tag : RNode → RTag
  | .largeVideo _ => .largeVideoT
  | .tileView => .tileViewT
  | .loadingIndicator => .loadingIndicatorT
  | .tintedView _ => .tintedViewT
  | .displayNameLabel _ => .displayNameLabelT
  | .toolbox => .toolboxT
  | .filmstrip => .filmstripT
  | .safeAreaView _ => .safeAreaViewT

mutual

/-- Whether a node or one of its descendants has the given kind. -/
def containsTag (t : RTag) : RNode → Bool
  | RNode.tintedView cs => (RTag.tintedViewT == t) || containsTagList t cs
  | RNode.safeAreaView cs => (RTag.safeAreaViewT == t) || containsTagList t cs
  | n => RNode.tag n == t

/-- Whether any node of the list or its descendants has the given kind. -/
def containsTagList (t : RTag) : List RNode → Bool
  | [] => false
  | c :: cs => containsTag t c || containsTagList t cs

end

/-- Whether a rendered tree (a list of root elements) contains an element of
the given kind. -/
def treeContains (t : RTag) (l : List RNode) : Bool :=
  containsTagList t l

/-- A JSX child expression evaluates to an element, a JavaScript boolean, or
`undefined`; React mounts only the element case and renders nothing for the
other two. -/
inductive JSXVal where
  | node : RNode → JSXVal
  | jsBool : Bool → JSXVal
  | undef : JSXVal
deriving Repr

/-- The elements React actually mounts for a JSX child value. -/
def JSXVal.toNodes : JSXVal → List RNode
  | .node n => [n]
  | .jsBool _ => []
  | .undef => []

/-- JavaScript `b && <elem>` inside JSX: the element when `b` is true, the
boolean `false` otherwise. -/
def jsxAnd (b : Bool) (e : RNode) : JSXVal :=
  if b then .node e else .jsBool false

/-- JavaScript `b || v` inside JSX: the boolean `true` when `b` is true
(which React renders as nothing), otherwise the right operand. -/
def jsxOr (b : Bool) (v : JSXVal) : JSXVal :=
  if b then .jsBool true else v

/-- The reduced-UI render path, identical in both variants
(variant 1 lines 290-305, variant 2 lines 308-323): a large video with no
`whiteback` prop, plus `connecting && <TintedView><LoadingIndicator/></TintedView>`. -/
def _renderContentForReducedUi (p : ConferenceProps) : List RNode :=
  RNode.largeVideo none
    :: (jsxAnd p.connecting (RNode.tintedView [RNode.loadingIndicator])).toNodes

/-- The lowermost stacking layer of the variant 1 non-reduced tree
(lines 242-246): `_toolboxEnabled ? (_shouldDisplayTileView ? <TileView/> :
<LargeVideo whiteback={false}/>) : <LargeVideo whiteback={true}/>`. -/
def videoSurface (p : ConferenceProps) : RNode :=
  if p.toolboxEnabled then
    if p.shouldDisplayTileView then RNode.tileView else RNode.largeVideo (some false)
  else
    RNode.largeVideo (some true)

/-- Variant 1 render content (Conference.js lines 219-282).  The two locals
`showGradient` and `applyGradientStretching` are computed and never used in
the source; they are kept as dead lets.  The reduced-UI branch short-circuits
before the main JSX.  The rendered tree is the list of mounted root elements. -/
def _renderContent (p : ConferenceProps) : List RNode :=
  let _showGradient := p.toolboxVisible
  let _applyGradientStretching :=
    p.filmstripVisible && p.aspectRatioNarrow && !p.shouldDisplayTileView
  if p.reducedUI then
    _renderContentForReducedUi p
  else
    videoSurface p
      :: (jsxAnd (p.toolboxEnabled && p.connecting)
            (RNode.tintedView [RNode.loadingIndicator])).toNodes
      ++ [RNode.safeAreaView (
            (jsxOr p.shouldDisplayTileView
               (jsxAnd p.toolboxEnabled
                  (RNode.displayNameLabel p.largeVideoParticipantId))).toNodes
            ++ (jsxAnd p.toolboxEnabled RNode.toolbox).toNodes
            ++ (if p.shouldDisplayTileView then JSXVal.undef
                else jsxAnd p.toolboxEnabled RNode.filmstrip).toNodes)]

/-- A JavaScript runtime error raised while evaluating a render method. -/
inductive JsError where
  | referenceError : String → JsError
deriving DecidableEq, Repr

/-- Variant 2 render content (part_000 lines 239-300).  The reduced-UI branch
is identical to variant 1 and returns normally.  The non-reduced JSX evaluates
`getFeatureFlag(state, "toolbox.enabled")` as its first child expression, but
no binding named `state` is in scope in the method or in the module, so
evaluation throws a ReferenceError before any element is produced. -/
def _renderContentV2 (p : ConferenceProps) : Except JsError (List RNode) :=
  let _showGradient := p.toolboxVisible
  let _applyGradientStretching :=
    p.filmstripVisible && p.aspectRatioNarrow && !p.shouldDisplayTileView
  if p.reducedUI then
    Except.ok (_renderContentForReducedUi p)
  else
    Except.error (JsError.referenceError "state")

/-- The redux actions this component can dispatch. -/
inductive ReduxAction where
  | appNavigateAction : Option String → ReduxAction
  | setToolboxVisibleAction : Bool → ReduxAction
deriving DecidableEq, Repr

/-- The `appNavigate` action creator imported from the app actions module
(external to src); it carries the destination, `undefined` modelled as none. -/
def appNavigate (dest : Option String) : ReduxAction :=
  ReduxAction.appNavigateAction dest

/-- The `setToolboxVisible` action creator imported from the toolbox actions
module (external to src); it carries the requested visibility. -/
def setToolboxVisible (visible : Bool) : ReduxAction :=
  ReduxAction.setToolboxVisibleAction visible

/-- The outcome of the asynchronous `PictureInPicture.enterPictureInPicture()`
request once it settles. -/
inductive PipOutcome where
  | success
  | failure
deriving DecidableEq, BEq, Repr

/-- The hardware back press handler, identical in both variants
(variant 1 lines 184-200).  If picture-in-picture is enabled the native enter
request is issued, otherwise `p` is a rejected promise; the catch continuation
dispatches `appNavigate(undefined)`; the handler itself returns `true`
synchronously.  The result pairs the returned boolean with the list of actions
the continuation dispatches once the request settles with the given outcome. -/
def _onHardwareBackPress (pipEnabled : Bool) (pipOutcome : PipOutcome) :
    Bool × List ReduxAction :=
  let p : Except String Unit :=
    if pipEnabled then
      match pipOutcome with
      | PipOutcome.success => Except.ok ()
      | PipOutcome.failure => Except.error "enterPictureInPicture rejected"
    else
      Except.error "PiP not enabled"
  let dispatched : List ReduxAction :=
    match p with
    | Except.ok _ => []
    | Except.error _ => [appNavigate none]
  (true, dispatched)

/-- The tap handler on the video surface, identical in both variants
(variant 1 lines 172-174 and 317-319): it calls the bound setter, which
dispatches `setToolboxVisible(!toolboxVisible)`.  The result is the list of
dispatched actions. -/
def _onClick (toolboxVisible : Bool) : List ReduxAction :=
  [setToolboxVisible (!toolboxVisible)]

/-- Modelled from the spec: the platform back-button registry
(`BackButtonRegistry` from the mobile back-button module, which is not under
src) exposing `addListener` and `removeListener`; its state is the list of
registered listeners.  A listener is identified by a natural number standing
for the per-instance bound handler (the handler is bound exactly once in the
constructor, so one instance always registers the same listener value). -/
structure BackButtonRegistryState where
  listeners : List Nat
deriving DecidableEq, Repr

/-- Modelled from the spec: `addListener` registers the given listener. -/
def addListener (r : BackButtonRegistryState) (l : Nat) : BackButtonRegistryState :=
  { listeners := r.listeners ++ [l] }

/-- Modelled from the spec: `removeListener` deregisters the given listener. -/
def removeListener (r : BackButtonRegistryState) (l : Nat) : BackButtonRegistryState :=
  { listeners := r.listeners.filter (fun x => x != l) }

/-- Mounting the component (variant 1 lines 132-134): the single effect is one
`BackButtonRegistry.addListener(this._onHardwareBackPress)` call with the bound
handler of the instance. -/
def componentDidMount (r : BackButtonRegistryState) (inst : Nat) :
    BackButtonRegistryState :=
  addListener r inst

/-- Unmounting the component (variant 1 lines 144-147): the single effect is
one unconditional `BackButtonRegistry.removeListener(this._onHardwareBackPress)`
call with the same bound handler. -/
def componentWillUnmount (r : BackButtonRegistryState) (inst : Nat) :
    BackButtonRegistryState :=
  removeListener r inst

/-- The slice of the redux state the variant 1 state-to-props mapping reads.
Results of external selectors are modelled as fields: `conferenceName` is the
result of `getConferenceName(state)` (`undefined` modelled as none),
`shouldDisplayTileView` comes from the abstract mapping of the base class,
`filmstripVisible`, `toolboxVisible` and `pipEnabled` are the results of the
respective external selectors. -/
structure ReduxState where
  connecting : Bool
  connection : Bool
  conference : Bool
  joining : Bool
  membersOnly : Bool
  leaving : Bool
  aspectRatioNarrow : Bool
  reducedUI : Bool
  conferenceName : Option String
  largeVideoParticipantId : String
  shouldDisplayTileView : Bool
  filmstripVisible : Bool
  toolboxVisible : Bool
  pipEnabled : Bool
deriving DecidableEq, Repr

/-- The `getConferenceName` selector imported from the base conference module
(external to src), modelled as the projection of its recorded result. -/
def getConferenceName (s : ReduxState) : Option String :=
  s.conferenceName

/-- The variant 1 state-to-props mapping (Conference.js lines 329-380),
restricted to the props the render methods consume.  `_connecting` is the
derived flag; `_toolboxEnabled` is
`getConferenceName(state) === 'toolbox_disabled' ? false : true`. -/
def _mapStateToProps (s : ReduxState) : ConferenceProps :=
  { aspectRatioNarrow := s.aspectRatioNarrow
    connecting := connectingProp
      ⟨s.connecting, s.connection, s.conference, s.joining, s.membersOnly, s.leaving⟩
    filmstripVisible := s.filmstripVisible
    largeVideoParticipantId := s.largeVideoParticipantId
    reducedUI := s.reducedUI
    shouldDisplayTileView := s.shouldDisplayTileView
    toolboxVisible := s.toolboxVisible
    toolboxEnabled :=
      if getConferenceName s == some "toolbox_disabled" then false else true }

/-- Whether the head of a rendered tree is a large-video element. -/
def headIsLargeVideo : List RNode → Bool
  | RNode.largeVideo _ :: _ => true
  | _ => false

/-- The `whiteback` value of the head of a rendered tree when the head is a
large-video element with an explicit `whiteback` prop, `false` otherwise. -/
def headWhiteback : List RNode → Bool
  | RNode.largeVideo (some b) :: _ => b
  | _ => false

/-- C1: for every combination of the five session flags (and the members-only
flag), the variant 1 derived connecting flag equals the claimed formula with
the members-only gate, and the variant 2 derived connecting flag equals the
claimed formula without it. -/
theorem connecting_matches_claimed_formula :
    ∀ (c cn cf j m l : Bool),
      connectingProp ⟨c, cn, cf, j, m, l⟩ = connectingClaimedMembersOnly ⟨c, cn, cf, j, m, l⟩ ∧
      connectingPropV2 ⟨c, cn, cf, j, m, l⟩ = connectingClaimed ⟨c, cn, cf, j, m, l⟩ := by
  decide

/-- C5: the hardware back press handler returns true for every value of the
picture-in-picture flag and every outcome of the entry request. -/
theorem onHardwareBackPress_always_handled :
    ∀ (pipEnabled : Bool) (o : PipOutcome),
      (_onHardwareBackPress pipEnabled o).1 = true := by
  intro pipEnabled o
  cases pipEnabled <;> cases o <;> rfl

/-- C6: the back press handler dispatches no action when picture-in-picture is
enabled and the entry request succeeds, and dispatches exactly the singleton
navigate-away action (hang-up with undefined destination) in every other case:
disabled, or enabled with a failing request. -/
theorem onHardwareBackPress_dispatch :
    ∀ (pipEnabled : Bool) (o : PipOutcome),
      (_onHardwareBackPress pipEnabled o).2 =
        (if pipEnabled && (o == PipOutcome.success) then []
         else [appNavigate none]) := by
  intro pipEnabled o
  cases pipEnabled <;> cases o <;> rfl

/-- C8: for every current toolbox visibility, a tap on the video surface
dispatches exactly one action and that action is the visibility action
carrying the negated value. -/
theorem onClick_toggles_toolbox :
    ∀ (v : Bool),
      (_onClick v).length = 1 ∧
      _onClick v = [ReduxAction.setToolboxVisibleAction (!v)] := by
  intro v
  exact ⟨rfl, rfl⟩

/-- C10: the toolbox-enabled prop produced by the variant 1 state-to-props
mapping depends only on the conference name, and is false exactly when the
conference name is the literal string of the disabled marker. -/
theorem toolboxEnabled_from_conference_name :
    ∀ (s t : ReduxState), getConferenceName s = getConferenceName t →
      (_mapStateToProps s).toolboxEnabled = (_mapStateToProps t).toolboxEnabled ∧
      ((_mapStateToProps s).toolboxEnabled = false ↔
        getConferenceName s = some "toolbox_disabled") := by
  intro s t h
  constructor
  · simp [_mapStateToProps, h]
  · simp [_mapStateToProps]

/-- Witness for C10 at a concrete state whose conference name is the disabled
marker. -/
theorem toolboxEnabled_from_conference_name_witness :
    (_mapStateToProps ⟨false, false, false, false, false, false, false, false,
        some "toolbox_disabled", "", false, false, false, false⟩).toolboxEnabled =
      (_mapStateToProps ⟨false, false, false, false, false, false, false, false,
        some "toolbox_disabled", "", false, false, false, false⟩).toolboxEnabled ∧
    ((_mapStateToProps ⟨false, false, false, false, false, false, false, false,
        some "toolbox_disabled", "", false, false, false, false⟩).toolboxEnabled = false ↔
      getConferenceName ⟨false, false, false, false, false, false, false, false,
        some "toolbox_disabled", "", false, false, false, false⟩ = some "toolbox_disabled") :=
  toolboxEnabled_from_conference_name _ _ rfl

/-- C3: with the reduced-UI flag true, in both variants the rendered tree is
exactly the large-video surface plus, when connecting, the tinted overlay with
a loading indicator; it never contains the toolbox, the filmstrip, the
display-name label, or the tile view. -/
theorem reducedUi_renders_only_video_and_overlay :
    ∀ (ar c f : Bool) (id : String) (tv tvis te : Bool),
      (_renderContent ⟨ar, c, f, id, true, tv, tvis, te⟩).head? =
        some (RNode.largeVideo none) ∧
      (_renderContent ⟨ar, c, f, id, true, tv, tvis, te⟩).length =
        (if c then 2 else 1) ∧
      treeContains RTag.tintedViewT (_renderContent ⟨ar, c, f, id, true, tv, tvis, te⟩) = c ∧
      treeContains RTag.loadingIndicatorT (_renderContent ⟨ar, c, f, id, true, tv, tvis, te⟩) = c ∧
      treeContains RTag.toolboxT (_renderContent ⟨ar, c, f, id, true, tv, tvis, te⟩) = false ∧
      treeContains RTag.filmstripT (_renderContent ⟨ar, c, f, id, true, tv, tvis, te⟩) = false ∧
      treeContains RTag.displayNameLabelT (_renderContent ⟨ar, c, f, id, true, tv, tvis, te⟩) = false ∧
      treeContains RTag.tileViewT (_renderContent ⟨ar, c, f, id, true, tv, tvis, te⟩) = false ∧
      _renderContentV2 ⟨ar, c, f, id, true, tv, tvis, te⟩ =
        Except.ok (_renderContent ⟨ar, c, f, id, true, tv, tvis, te⟩) := by
  intro ar c f id tv tvis te
  cases c <;> exact ⟨rfl, rfl, rfl, rfl, rfl, rfl, rfl, rfl, rfl⟩

/-- C2 counterexample: at a concrete props value with tile view active and
reduced UI off (toolbox feature enabled), the variant 1 rendered tree contains
no display-name label, contradicting the claim that it always contains one. -/
theorem tileView_label_counterexample :
    (⟨false, false, false, "", false, true, false, true⟩ : ConferenceProps).shouldDisplayTileView = true ∧
    (⟨false, false, false, "", false, true, false, true⟩ : ConferenceProps).reducedUI = false ∧
    treeContains RTag.filmstripT
      (_renderContent ⟨false, false, false, "", false, true, false, true⟩) = false ∧
    treeContains RTag.displayNameLabelT
      (_renderContent ⟨false, false, false, "", false, true, false, true⟩) = false :=
  ⟨rfl, rfl, rfl, rfl⟩

/-- C2 amended: with tile view active (and reduced UI off) the variant 1
rendered tree contains no filmstrip element and also no display-name label;
in general the label is rendered exactly when tile view is off and the toolbox
feature is enabled. -/
theorem tileView_no_filmstrip_no_label :
    ∀ (ar c f : Bool) (id : String) (tv tvis te : Bool),
      treeContains RTag.filmstripT
        (_renderContent ⟨ar, c, f, id, false, true, tvis, te⟩) = false ∧
      treeContains RTag.displayNameLabelT
        (_renderContent ⟨ar, c, f, id, false, true, tvis, te⟩) = false ∧
      treeContains RTag.displayNameLabelT
        (_renderContent ⟨ar, c, f, id, false, tv, tvis, te⟩) = (!tv && te) := by
  intro ar c f id tv tvis te
  cases c <;> cases tv <;> cases te <;> exact ⟨rfl, rfl, rfl⟩

/-- C4: at a concrete props value with reduced UI off, the variant 2 render
method throws a ReferenceError for the unbound identifier named state instead
of returning a tree, contradicting the claim that rendering never fails. -/
theorem renderContentV2_throws_reference_error :
    _renderContentV2 ⟨false, false, false, "", false, false, false, false⟩ =
      Except.error (JsError.referenceError "state") :=
  rfl

/-- C9 counterexample: at a concrete props value with tile view active but the
toolbox feature disabled (reduced UI off), the variant 1 video surface is the
white-background large video, not the tiled grid, contradicting the claim that
the surface is the tiled grid whenever tile view is active. -/
theorem surface_tileView_counterexample :
    (⟨false, false, false, "", false, true, false, false⟩ : ConferenceProps).shouldDisplayTileView = true ∧
    (⟨false, false, false, "", false, true, false, false⟩ : ConferenceProps).reducedUI = false ∧
    treeContains RTag.tileViewT
      (_renderContent ⟨false, false, false, "", false, true, false, false⟩) = false ∧
    headIsLargeVideo (_renderContent ⟨false, false, false, "", false, true, false, false⟩) = true ∧
    headWhiteback (_renderContent ⟨false, false, false, "", false, true, false, false⟩) = true :=
  ⟨rfl, rfl, rfl, rfl, rfl⟩

/-- C9 amended: in the variant 1 non-reduced tree, the dimmed loading overlay
appears exactly when connecting and the toolbox feature is enabled; the video
surface is the tiled grid exactly when tile view is active and the toolbox
feature is enabled, otherwise it is the single large video, which uses the
white-background variant exactly when the toolbox feature is disabled. -/
theorem nonReduced_surface_and_overlay :
    ∀ (ar c f : Bool) (id : String) (tv tvis te : Bool),
      treeContains RTag.tintedViewT
        (_renderContent ⟨ar, c, f, id, false, tv, tvis, te⟩) = (c && te) ∧
      treeContains RTag.loadingIndicatorT
        (_renderContent ⟨ar, c, f, id, false, tv, tvis, te⟩) = (c && te) ∧
      treeContains RTag.tileViewT
        (_renderContent ⟨ar, c, f, id, false, tv, tvis, te⟩) = (tv && te) ∧
      headIsLargeVideo (_renderContent ⟨ar, c, f, id, false, tv, tvis, te⟩) = !(tv && te) ∧
      headWhiteback (_renderContent ⟨ar, c, f, id, false, tv, tvis, te⟩) = !te := by
  intro ar c f id tv tvis te
  cases c <;> cases tv <;> cases te <;> exact ⟨rfl, rfl, rfl, rfl, rfl⟩

/-- C7: mounting an instance whose listener is not yet registered adds exactly
one occurrence of that listener; unmounting then removes it and restores the
registry exactly, so after a mount and unmount cycle the registry holds no
listener of that instance and other listeners are untouched. -/
theorem mount_unmount_symmetric :
    ∀ (r : BackButtonRegistryState) (inst : Nat), inst ∉ r.listeners →
      (componentDidMount r inst).listeners.count inst = 1 ∧
      (componentWillUnmount (componentDidMount r inst) inst).listeners = r.listeners ∧
      (componentWillUnmount (componentDidMount r inst) inst).listeners.count inst = 0 := by
  intro r inst h
  have hcount : r.listeners.count inst = 0 := List.count_eq_zero.mpr h
  have hfilter : r.listeners.filter (fun x => x != inst) = r.listeners :=
    List.filter_eq_self.mpr (fun a ha => by
      have : a ≠ inst := fun e => h (e ▸ ha)
      simpa using this)
  refine ⟨?_, ?_, ?_⟩
  · simp [componentDidMount, addListener, List.count_append, hcount]
  · simp [componentWillUnmount, removeListener, componentDidMount, addListener,
      List.filter_append, hfilter]
  · simp [componentWillUnmount, removeListener, componentDidMount, addListener,
      List.filter_append, hfilter, hcount]

/-- Witness for C7: a registry holding one other listener, mounted and
unmounted with a fresh instance. -/
theorem mount_unmount_symmetric_witness :
    (3 ∉ ([5] : List Nat)) ∧
    ((componentDidMount ⟨[5]⟩ 3).listeners.count 3 = 1 ∧
     (componentWillUnmount (componentDidMount ⟨[5]⟩ 3) 3).listeners =
       (⟨[5]⟩ : BackButtonRegistryState).listeners ∧
     (componentWillUnmount (componentDidMount ⟨[5]⟩ 3) 3).listeners.count 3 = 0) :=
  ⟨by decide, mount_unmount_symmetric ⟨[5]⟩ 3 (by decide)⟩
